import Mathlib

/-
Verification of the koop-auth-direct-file module (src/src/index.js).

The file contains two variants of the module separated by a document marker:
the primary variant (request-object based, with a useHttp option) and a
second variant (raw username/password, provider-namespace descriptor).
Both are embedded below; `auth`, `authenticate`, `authorize`,
`authenticationSpecification` model the primary variant and the names
suffixed with 2 model the second variant.

External collaborators (the jsonwebtoken sign/verify primitive and the
validate-credentials store lookup) are modelled abstractly through their
documented contracts; promises are modelled by the ordered list of
settlement attempts the executor makes, the promise outcome being the
first attempt (JavaScript promises ignore every settlement after the
first one).
-/

namespace KoopAuthDirectFile

/-- A JavaScript value, restricted to the shapes the module inspects:
undefined, null, booleans, numbers (modelled as rationals so that
Number.isInteger is expressible) and strings. -/
inductive JSVal where
  | undef
  | null
  | bool (b : Bool)
  | num (q : ℚ)
  | str (s : String)
deriving DecidableEq, Repr

/-- JavaScript truthiness for the values of `JSVal`. -/
def jsTruthy : JSVal → Bool
  | .undef => false
  | .null => false
  | .bool b => b
  | .num q => decide (q ≠ 0)
  | .str s => decide (s ≠ "")

/-- The JavaScript expression `a || b`. -/
def jsOr (a b : JSVal) : JSVal :=
  if jsTruthy a then a else b

/-- The JavaScript test `typeof v === 'boolean'`. -/
def isBoolVal : JSVal → Bool
  | .bool _ => true
  | _ => false

/-- The JavaScript test `Number.isInteger(v)`. -/
def isIntegerNum : JSVal → Bool
  | .num q => decide (q.den = 1)
  | _ => false

/-- The JavaScript comparison `v < 5` as evaluated on a number; the module
only reaches it after Number.isInteger(v) has succeeded. -/
def numLt5 : JSVal → Bool
  | .num q => decide (q < 5)
  | _ => false

/-- The numeric content of a `JSVal` (the module only applies arithmetic to
values that the configuration validated to be numbers). -/
def jsNum : JSVal → ℚ
  | .num q => q
  | _ => 0

/-- A JavaScript Error as the module uses it: a message plus the optional
`code` property the module attaches (401 on authentication failures). -/
structure JsErr where
  message : String
  code : Option Int := none
deriving DecidableEq, Repr

/-- The options object accepted by `auth` in the primary variant. -/
structure AuthOptions where
  useHttp : JSVal := JSVal.undef
  tokenExpirationMinutes : JSVal := JSVal.undef
deriving DecidableEq, Repr

/-- The module-level configuration established by `auth` in the primary
variant: `_secret`, `_userStoreFilePath`, `_useHttp`,
`_tokenExpirationMinutes`. -/
structure AuthConfig where
  secretV : String
  userStoreFilePathV : String
  useHttpV : JSVal
  tokenExpirationMinutesV : JSVal
deriving DecidableEq, Repr

/-- The constant TOKEN_EXPIRATION_MINUTES = 60. -/
def TOKEN_EXPIRATION_MINUTES : ℚ := 60

/-- The guard of line 28: `options.useHttp && typeof options.useHttp !== 'boolean'`. -/
def useHttpInvalid (v : JSVal) : Bool :=
  jsTruthy v && !(isBoolVal v)

/-- The guard of line 32:
`options.tokenExpirationMinutes && (!Number.isInteger(options.tokenExpirationMinutes) || options.tokenExpirationMinutes < 5)`. -/
def tokenExpInvalid (v : JSVal) : Bool :=
  jsTruthy v && (!(isIntegerNum v) || numLt5 v)

/-- The `auth` configuration function of the primary variant (lines 18-42).
The fire-and-forget fs.stat existence check throws asynchronously inside a
callback and does not affect the value `auth` returns, so it is outside
this model; the two synchronous validations and the module-state
assignments are modelled exactly. -/
def auth (secret userStoreFilePath : String) (options : AuthOptions) :
    Except JsErr AuthConfig :=
  if useHttpInvalid options.useHttp then
    Except.error ⟨"\"useHttp\" must be a boolean", none⟩
  else if tokenExpInvalid options.tokenExpirationMinutes then
    Except.error ⟨"\"tokenExpirationMinutes\" must be an integer >= 5", none⟩
  else
    Except.ok
      ⟨secret, userStoreFilePath,
        jsOr options.useHttp (JSVal.bool false),
        jsOr options.tokenExpirationMinutes (JSVal.num TOKEN_EXPIRATION_MINUTES)⟩

/-- The descriptor returned by `authenticationSpecification` (lines 48-52). -/
structure AuthSpec where
  useHttp : JSVal
deriving DecidableEq, Repr

/-- `authenticationSpecification` of the primary variant: reads `_useHttp`,
writes nothing. -/
def authenticationSpecification (cfg : AuthConfig) : AuthSpec :=
  ⟨cfg.useHttpV⟩

/-- The claims payload the module signs: `{exp, sub}` (line 80). `sub` is
optional because the extracted username may be undefined. -/
structure JwtClaims where
  exp : Int
  sub : Option String
deriving DecidableEq, Repr

/-- A token string, modelled abstractly: either a well-formed token carrying
the claims and the secret it was signed with, or a malformed string. -/
inductive Token where
  | signed (claims : JwtClaims) (secret : String)
  | malformed (raw : String)
deriving DecidableEq, Repr

/-- The external signing primitive jwt.sign(claims, secret). -/
def jwtSign (claims : JwtClaims) (secret : String) : Token :=
  Token.signed claims secret

/-- The external verification primitive jwt.verify(token, secret): per its
documented contract it fails on a missing or malformed token, on a
signature made with a different secret, and on an expired token (expired
when the clock in epoch seconds has reached the embedded `exp`);
otherwise it returns the decoded claims. -/
def jwtVerify (t : Option Token) (secret : String) (nowSec : Int) :
    Except JsErr JwtClaims :=
  match t with
  | none => Except.error ⟨"jwt must be provided", none⟩
  | some (Token.malformed _) => Except.error ⟨"jwt malformed", none⟩
  | some (Token.signed c s) =>
    if s ≠ secret then Except.error ⟨"invalid signature", none⟩
    else if c.exp ≤ nowSec then Except.error ⟨"jwt expired", none⟩
    else Except.ok c

/-- One settlement attempt on a promise. -/
inductive Settle (α : Type) where
  | rejected (e : JsErr)
  | resolved (v : α)
deriving DecidableEq, Repr

/-- The outcome of a promise given the ordered settlement attempts its
executor makes: the first attempt wins, later ones are ignored; `none`
would mean the promise stays pending. -/
def promiseOutcome {α : Type} (attempts : List (Settle α)) : Option (Settle α) :=
  attempts.head?

/-- The response object resolved by `authenticate` (lines 79-82). -/
structure TokenResponse where
  token : Token
  expires : ℚ
deriving DecidableEq, Repr

/-- The contract of the external validate-credentials collaborator:
given username, password and the store file path it yields a promise of a
boolean, or fails with an I/O or parse error. -/
def ValidateFn : Type :=
  Option String → Option String → String → Except JsErr Bool

/-- The request fields `authenticate` inspects (query and body string
fields; the model assumes a body object is present, as the source reads
`req.body.username` unguarded). A `some ""` field is present but falsy. -/
structure AuthRequest where
  queryUsername : Option String := none
  queryPassword : Option String := none
  bodyUsername : Option String := none
  bodyPassword : Option String := none
deriving DecidableEq, Repr

/-- Truthiness of an optional string field. -/
def strTruthy : Option String → Bool
  | none => false
  | some s => decide (s ≠ "")

/-- The extraction pattern of lines 63-67: take the query field when truthy,
otherwise the body field when truthy, otherwise undefined. -/
def pick (q b : Option String) : Option String :=
  if strTruthy q then q else if strTruthy b then b else none

/-- The ordered settlement attempts of the `authenticate` executor
(lines 59-89): on a collaborator error, reject with it unchanged; on
`valid = false`, reject with the 401 "Invalid credentials." error but fall
through (no return) to also attempt resolving the token response; on
`valid = true`, resolve the token response. -/
def authenticateAttempts (cfg : AuthConfig) (validate : ValidateFn)
    (req : AuthRequest) (nowMs : Int) : List (Settle TokenResponse) :=
  let username := pick req.queryUsername req.bodyUsername
  let password := pick req.queryPassword req.bodyPassword
  match validate username password cfg.userStoreFilePathV with
  | Except.error e => [Settle.rejected e]
  | Except.ok valid =>
    let expires : ℚ := (nowMs : ℚ) + jsNum cfg.tokenExpirationMinutesV * 60 * 1000
    let json : TokenResponse :=
      ⟨jwtSign ⟨Rat.floor (expires / 1000), username⟩ cfg.secretV, expires⟩
    (if !valid then [Settle.rejected ⟨"Invalid credentials.", some 401⟩] else [])
      ++ [Settle.resolved json]

/-- The outcome of the promise returned by `authenticate` (primary
variant). -/
def authenticate (cfg : AuthConfig) (validate : ValidateFn)
    (req : AuthRequest) (nowMs : Int) : Option (Settle TokenResponse) :=
  promiseOutcome (authenticateAttempts cfg validate req nowMs)

/-- The request fields `authorize` inspects (lines 100-101). -/
structure AuthorizeRequest where
  queryToken : Option Token := none
  headerAuthorization : Option Token := none
deriving DecidableEq, Repr

/-- Truthiness of an optional token-string field: absent or the empty
string is falsy. -/
def tokenTruthy : Option Token → Bool
  | none => false
  | some (Token.signed _ _) => true
  | some (Token.malformed r) => decide (r ≠ "")

/-- The token extraction of lines 99-101: assign from the query parameter
when truthy, then overwrite from the authorization header when truthy. -/
def extractToken (req : AuthorizeRequest) : Option Token :=
  let t1 := if tokenTruthy req.queryToken then req.queryToken else none
  if tokenTruthy req.headerAuthorization then req.headerAuthorization else t1

/-- The ordered settlement attempts of the `authorize` executor
(lines 96-118): when no token was extracted, reject with the 401
"No authorization token." error but fall through to jwt.verify anyway;
the verify callback rejects with the error (code set to 401) but falls
through to also attempt resolving `decoded` (undefined on error). -/
def authorizeAttempts (cfg : AuthConfig) (req : AuthorizeRequest)
    (nowSec : Int) : List (Settle (Option JwtClaims)) :=
  let token := extractToken req
  (if token = none then [Settle.rejected ⟨"No authorization token.", some 401⟩] else [])
    ++ (match jwtVerify token cfg.secretV nowSec with
        | Except.error e => [Settle.rejected ⟨e.message, some 401⟩, Settle.resolved none]
        | Except.ok decoded => [Settle.resolved (some decoded)])

/-- The outcome of the promise returned by `authorize` (primary variant). -/
def authorize (cfg : AuthConfig) (req : AuthorizeRequest) (nowSec : Int) :
    Option (Settle (Option JwtClaims)) :=
  promiseOutcome (authorizeAttempts cfg req nowSec)

/-- The options object accepted by `auth` in the second variant. -/
structure AuthOptions2 where
  tokenExpirationMinutes : JSVal := JSVal.undef
deriving DecidableEq, Repr

/-- The module-level configuration of the second variant (no useHttp). -/
structure AuthConfig2 where
  secretV : String
  userStoreFilePathV : String
  tokenExpirationMinutesV : JSVal
deriving DecidableEq, Repr

/-- The `auth` configuration function of the second variant (lines 136-155):
it first defaults `_tokenExpirationMinutes = options.tokenExpirationMinutes || 60`
and then validates the defaulted value. -/
def auth2 (secret userStoreFilePath : String) (options : AuthOptions2) :
    Except JsErr AuthConfig2 :=
  let m := jsOr options.tokenExpirationMinutes (JSVal.num TOKEN_EXPIRATION_MINUTES)
  if !(isIntegerNum m) || numLt5 m then
    Except.error ⟨"\"tokenExpirationMinutes\" must be an integer >= 5", none⟩
  else
    Except.ok ⟨secret, userStoreFilePath, m⟩

/-- The ordered settlement attempts of the second variant's `authenticate`
executor (lines 176-198); it takes username and password directly and has
the same reject-then-fall-through shape. -/
def authenticate2Attempts (cfg : AuthConfig2) (validate : ValidateFn)
    (username password : Option String) (nowMs : Int) :
    List (Settle TokenResponse) :=
  match validate username password cfg.userStoreFilePathV with
  | Except.error e => [Settle.rejected e]
  | Except.ok valid =>
    let expires : ℚ := (nowMs : ℚ) + jsNum cfg.tokenExpirationMinutesV * 60 * 1000
    let json : TokenResponse :=
      ⟨jwtSign ⟨Rat.floor (expires / 1000), username⟩ cfg.secretV, expires⟩
    (if !valid then [Settle.rejected ⟨"Invalid credentials.", some 401⟩] else [])
      ++ [Settle.resolved json]

/-- The outcome of the promise returned by the second variant's
`authenticate`. -/
def authenticate2 (cfg : AuthConfig2) (validate : ValidateFn)
    (username password : Option String) (nowMs : Int) :
    Option (Settle TokenResponse) :=
  promiseOutcome (authenticate2Attempts cfg validate username password nowMs)

/-- The module-level mutable state of the primary variant: the four
module variables written by `auth` and read by the operations. -/
structure ModuleState where
  secretS : String
  userStoreFilePathS : String
  useHttpS : JSVal
  tokenExpirationMinutesS : JSVal
deriving DecidableEq, Repr

/-- View of the module state as the configuration record. -/
def ModuleState.toConfig (s : ModuleState) : AuthConfig :=
  ⟨s.secretS, s.userStoreFilePathS, s.useHttpS, s.tokenExpirationMinutesS⟩

/-- State-passing `authenticationSpecification`: its body (lines 48-52)
contains no assignment to any module variable, so the output state lists
each variable with the value it had on entry. -/
def authenticationSpecificationS (s : ModuleState) : AuthSpec × ModuleState :=
  (authenticationSpecification s.toConfig,
    ⟨s.secretS, s.userStoreFilePathS, s.useHttpS, s.tokenExpirationMinutesS⟩)

/-- State-passing `authenticate`: its body (lines 59-89) contains no
assignment to any module variable. -/
def authenticateS (s : ModuleState) (validate : ValidateFn)
    (req : AuthRequest) (nowMs : Int) :
    Option (Settle TokenResponse) × ModuleState :=
  (authenticate s.toConfig validate req nowMs,
    ⟨s.secretS, s.userStoreFilePathS, s.useHttpS, s.tokenExpirationMinutesS⟩)

/-- State-passing `authorize`: its body (lines 96-118) contains no
assignment to any module variable. -/
def authorizeS (s : ModuleState) (req : AuthorizeRequest) (nowSec : Int) :
    Option (Settle (Option JwtClaims)) × ModuleState :=
  (authorize s.toConfig req nowSec,
    ⟨s.secretS, s.userStoreFilePathS, s.useHttpS, s.tokenExpirationMinutesS⟩)

/-- One call to the module API after configuration. -/
inductive ApiCall where
  | describe
  | doAuthenticate (validate : ValidateFn) (req : AuthRequest) (nowMs : Int)
  | doAuthorize (req : AuthorizeRequest) (nowSec : Int)

/-- The state transition of one API call (discarding its result). -/
def stepCall (s : ModuleState) : ApiCall → ModuleState
  | ApiCall.describe => (authenticationSpecificationS s).2
  | ApiCall.doAuthenticate validate req nowMs => (authenticateS s validate req nowMs).2
  | ApiCall.doAuthorize req nowSec => (authorizeS s req nowSec).2

/-- The state after a sequence of API calls. -/
def runCalls (s : ModuleState) (calls : List ApiCall) : ModuleState :=
  calls.foldl stepCall s

/-- Helper: an absent token field is falsy. -/
theorem tokenTruthy_none : tokenTruthy none = false := rfl

/-- Helper: a truthy optional token is a `some`. -/
theorem tokenTruthy_isSome {o : Option Token} (h : tokenTruthy o = true) :
    ∃ t, o = some t := by
  cases o with
  | none => simp [tokenTruthy] at h
  | some t => exact ⟨t, rfl⟩

/-- Helper: no API call writes any module variable. -/
theorem stepCall_id (s : ModuleState) (c : ApiCall) : stepCall s c = s := by
  cases c <;> rfl

/-- Claim C1: whenever the credential-validation collaborator reports the
submitted credentials invalid, the promise returned by `authenticate`
(in both variants of the module) settles as a rejection carrying the
401-classified "Invalid credentials." error; since a promise settles at
most once, it does not also resolve with the token object built by the
fall-through code. -/
theorem authenticate_invalid_credentials_rejects_401
    (cfg : AuthConfig) (validate : ValidateFn) (req : AuthRequest) (nowMs : Int)
    (h : validate (pick req.queryUsername req.bodyUsername)
      (pick req.queryPassword req.bodyPassword) cfg.userStoreFilePathV
        = Except.ok false)
    (cfg2 : AuthConfig2) (validate2 : ValidateFn) (u p : Option String)
    (nowMs2 : Int)
    (h2 : validate2 u p cfg2.userStoreFilePathV = Except.ok false) :
    authenticate cfg validate req nowMs
        = some (Settle.rejected ⟨"Invalid credentials.", some 401⟩)
      ∧ authenticate2 cfg2 validate2 u p nowMs2
        = some (Settle.rejected ⟨"Invalid credentials.", some 401⟩) := by
  constructor
  · simp [authenticate, authenticateAttempts, promiseOutcome, h]
  · simp [authenticate2, authenticate2Attempts, promiseOutcome, h2]

/-- Witness for C1 at a concrete input. -/
theorem authenticate_invalid_credentials_rejects_401_witness :
    authenticate ⟨"secret", "store.json", JSVal.bool false, JSVal.num 60⟩
        (fun _ _ _ => Except.ok false) ⟨some "alice", some "pw", none, none⟩ 0
        = some (Settle.rejected ⟨"Invalid credentials.", some 401⟩)
      ∧ authenticate2 ⟨"secret", "store.json", JSVal.num 60⟩
        (fun _ _ _ => Except.ok false) (some "alice") (some "pw") 0
        = some (Settle.rejected ⟨"Invalid credentials.", some 401⟩) :=
  authenticate_invalid_credentials_rejects_401 _ _ _ 0 rfl _ _ _ _ 0 rfl

/-- Claim C2: a token issued by `authenticate` for credentials the
collaborator accepts, submitted to `authorize` before the token's embedded
expiry, verifies against the same configured secret and yields decoded
claims whose subject is the username that was submitted. -/
theorem authenticate_authorize_roundtrip
    (cfg : AuthConfig) (validate : ValidateFn) (req : AuthRequest)
    (nowMs nowSec : Int)
    (hv : validate (pick req.queryUsername req.bodyUsername)
      (pick req.queryPassword req.bodyPassword) cfg.userStoreFilePathV
        = Except.ok true)
    (hnow : nowSec < Rat.floor
      (((nowMs : ℚ) + jsNum cfg.tokenExpirationMinutesV * 60 * 1000) / 1000)) :
    ∃ resp : TokenResponse,
      authenticate cfg validate req nowMs = some (Settle.resolved resp)
        ∧ ∃ c : JwtClaims,
          authorize cfg ⟨some resp.token, none⟩ nowSec
              = some (Settle.resolved (some c))
            ∧ c.sub = pick req.queryUsername req.bodyUsername := by
  refine ⟨⟨jwtSign
      ⟨Rat.floor (((nowMs : ℚ) + jsNum cfg.tokenExpirationMinutesV * 60 * 1000) / 1000),
        pick req.queryUsername req.bodyUsername⟩ cfg.secretV,
      (nowMs : ℚ) + jsNum cfg.tokenExpirationMinutesV * 60 * 1000⟩, ?_, ?_⟩
  · simp [authenticate, authenticateAttempts, promiseOutcome, hv]
  · refine ⟨⟨Rat.floor (((nowMs : ℚ) + jsNum cfg.tokenExpirationMinutesV * 60 * 1000) / 1000),
      pick req.queryUsername req.bodyUsername⟩, ?_, rfl⟩
    simp [authorize, authorizeAttempts, promiseOutcome, extractToken, tokenTruthy,
      jwtSign, jwtVerify, not_le.mpr hnow]

unseal Rat.add Rat.mul Rat.inv in
/-- Witness for C2 at a concrete input. -/
theorem authenticate_authorize_roundtrip_witness :
    ∃ resp : TokenResponse,
      authenticate ⟨"secret", "store.json", JSVal.bool false, JSVal.num 60⟩
          (fun _ _ _ => Except.ok true) ⟨some "alice", some "pw", none, none⟩ 0
          = some (Settle.resolved resp)
        ∧ ∃ c : JwtClaims,
          authorize ⟨"secret", "store.json", JSVal.bool false, JSVal.num 60⟩
              ⟨some resp.token, none⟩ 0
              = some (Settle.resolved (some c))
            ∧ c.sub = pick (some "alice") none :=
  authenticate_authorize_roundtrip _ _ _ 0 0 rfl (by decide)

/-- Claim C3: for accepted credentials, `authenticate` resolves with an
object whose `expires` is the current epoch-millisecond time plus the
configured lifetime times 60000, and whose token is the claims
`sub = submitted username`, `exp = floor(expires / 1000)` signed with the
configured secret. -/
theorem authenticate_valid_token_shape
    (cfg : AuthConfig) (validate : ValidateFn) (req : AuthRequest) (nowMs : Int)
    (hv : validate (pick req.queryUsername req.bodyUsername)
      (pick req.queryPassword req.bodyPassword) cfg.userStoreFilePathV
        = Except.ok true) :
    authenticate cfg validate req nowMs
      = some (Settle.resolved
          ⟨jwtSign
              ⟨Rat.floor (((nowMs : ℚ) + jsNum cfg.tokenExpirationMinutesV * 60000) / 1000),
                pick req.queryUsername req.bodyUsername⟩
              cfg.secretV,
            (nowMs : ℚ) + jsNum cfg.tokenExpirationMinutesV * 60000⟩) := by
  have h60 : ∀ q : ℚ, q * 60 * 1000 = q * 60000 := fun q => by ring
  simp [authenticate, authenticateAttempts, promiseOutcome, hv, h60]

/-- Witness for C3 at a concrete input. -/
theorem authenticate_valid_token_shape_witness :
    authenticate ⟨"secret", "store.json", JSVal.bool false, JSVal.num 60⟩
        (fun _ _ _ => Except.ok true) ⟨some "alice", some "pw", none, none⟩ 0
      = some (Settle.resolved
          ⟨jwtSign
              ⟨Rat.floor (((0 : ℚ) + jsNum (JSVal.num 60) * 60000) / 1000),
                pick (some "alice") none⟩
              "secret",
            (0 : ℚ) + jsNum (JSVal.num 60) * 60000⟩) := by
  have h := authenticate_valid_token_shape
    ⟨"secret", "store.json", JSVal.bool false, JSVal.num 60⟩
    (fun _ _ _ => Except.ok true) ⟨some "alice", some "pw", none, none⟩ 0 rfl
  simpa using h

/-- Helper: for a request carrying one truthy query token, the outcome of
`authorize` is determined by `jwtVerify` alone. -/
theorem authorize_query_only (cfg : AuthConfig) (t : Token) (nowSec : Int)
    (ht : tokenTruthy (some t) = true) :
    authorize cfg ⟨some t, none⟩ nowSec
      = match jwtVerify (some t) cfg.secretV nowSec with
        | Except.error e => some (Settle.rejected ⟨e.message, some 401⟩)
        | Except.ok d => some (Settle.resolved (some d)) := by
  have hx : extractToken ⟨some t, none⟩ = some t := by
    simp [extractToken, tokenTruthy_none, ht]
  simp only [authorize, authorizeAttempts, promiseOutcome, hx]
  cases jwtVerify (some t) cfg.secretV nowSec <;> simp

/-- Claim C4: a supplied token authorizes successfully exactly when it was
signed with the configured secret and its embedded expiry has not passed;
in every other case (different secret, malformed token, expired token)
the promise rejects with an error carrying the 401 code. -/
theorem authorize_valid_iff
    (cfg : AuthConfig) (t : Token) (nowSec : Int)
    (ht : tokenTruthy (some t) = true) :
    ((∃ c, authorize cfg ⟨some t, none⟩ nowSec = some (Settle.resolved (some c)))
        ↔ ∃ c, t = Token.signed c cfg.secretV ∧ nowSec < c.exp)
      ∧ ((¬ ∃ c, t = Token.signed c cfg.secretV ∧ nowSec < c.exp) →
          ∃ e : JsErr,
            authorize cfg ⟨some t, none⟩ nowSec = some (Settle.rejected e)
              ∧ e.code = some 401) := by
  have hout := authorize_query_only cfg t nowSec ht
  constructor
  · constructor
    · rintro ⟨c, hc⟩
      rw [hout] at hc
      cases t with
      | malformed r => simp [jwtVerify] at hc
      | signed d s =>
        by_cases hs : s = cfg.secretV
        · subst hs
          by_cases hexp : d.exp ≤ nowSec
          · simp [jwtVerify, hexp] at hc
          · exact ⟨d, rfl, not_le.mp hexp⟩
        · simp [jwtVerify, hs] at hc
    · rintro ⟨c, rfl, hlt⟩
      refine ⟨c, ?_⟩
      rw [hout]
      simp [jwtVerify, not_le.mpr hlt]
  · intro hno
    cases t with
    | malformed r =>
      refine ⟨⟨"jwt malformed", some 401⟩, ?_, rfl⟩
      rw [hout]
      simp [jwtVerify]
    | signed d s =>
      by_cases hs : s = cfg.secretV
      · subst hs
        by_cases hexp : d.exp ≤ nowSec
        · refine ⟨⟨"jwt expired", some 401⟩, ?_, rfl⟩
          rw [hout]
          simp [jwtVerify, hexp]
        · exact absurd ⟨d, rfl, not_le.mp hexp⟩ hno
      · refine ⟨⟨"invalid signature", some 401⟩, ?_, rfl⟩
        rw [hout]
        simp [jwtVerify, hs]

/-- Witness for C4 at a concrete input. -/
theorem authorize_valid_iff_witness :
    ∃ c, authorize ⟨"secret", "store.json", JSVal.bool false, JSVal.num 60⟩
        ⟨some (Token.signed ⟨100, some "alice"⟩ "secret"), none⟩ 0
      = some (Settle.resolved (some c)) :=
  (authorize_valid_iff ⟨"secret", "store.json", JSVal.bool false, JSVal.num 60⟩
      (Token.signed ⟨100, some "alice"⟩ "secret") 0 rfl).1.mpr
    ⟨⟨100, some "alice"⟩, rfl, by decide⟩

/-- Claim C5 counterexample: a configured lifetime of 0 is present and is
not an integer greater than or equal to 5, yet both `auth` variants
succeed, because 0 is falsy in JavaScript so the validation guard treats
it as absent and the default of 60 is stored. -/
theorem auth_tokenExpiration_zero_accepted :
    auth "secret" "store.json" ⟨JSVal.undef, JSVal.num 0⟩
        = Except.ok ⟨"secret", "store.json", JSVal.bool false, JSVal.num 60⟩
      ∧ auth2 "secret" "store.json" ⟨JSVal.num 0⟩
        = Except.ok ⟨"secret", "store.json", JSVal.num 60⟩ := by
  constructor <;> rfl

/-- Claim C5 as amended: for every options object whose lifetime field is
present and truthy (in particular nonzero) but not an integer ≥ 5, both
`auth` variants fail with the configuration error; the falsy value 0 is
instead treated as absent and defaults to 60. -/
theorem auth_tokenExpiration_truthy_invalid_rejected
    (secret path : String) (o : AuthOptions) (o2 : AuthOptions2)
    (h : jsTruthy o.tokenExpirationMinutes = true)
    (hbad : isIntegerNum o.tokenExpirationMinutes = false
      ∨ numLt5 o.tokenExpirationMinutes = true)
    (h2 : jsTruthy o2.tokenExpirationMinutes = true)
    (hbad2 : isIntegerNum o2.tokenExpirationMinutes = false
      ∨ numLt5 o2.tokenExpirationMinutes = true) :
    (∃ e : JsErr, auth secret path o = Except.error e)
      ∧ (∃ e : JsErr, auth2 secret path o2 = Except.error e) := by
  constructor
  · have hg : tokenExpInvalid o.tokenExpirationMinutes = true := by
      rcases hbad with hb | hb <;> simp [tokenExpInvalid, h, hb]
    by_cases hu : useHttpInvalid o.useHttp = true
    · exact ⟨⟨"\"useHttp\" must be a boolean", none⟩, by simp [auth, hu]⟩
    · exact ⟨⟨"\"tokenExpirationMinutes\" must be an integer >= 5", none⟩,
        by simp [auth, hu, hg]⟩
  · have hj : jsOr o2.tokenExpirationMinutes (JSVal.num TOKEN_EXPIRATION_MINUTES)
        = o2.tokenExpirationMinutes := by
      simp [jsOr, h2]
    refine ⟨⟨"\"tokenExpirationMinutes\" must be an integer >= 5", none⟩, ?_⟩
    simp only [auth2, hj]
    rcases hbad2 with hb | hb <;> simp [hb]

/-- Witness for the amended C5 at the concrete lifetime 3 named by the
spec's test matrix. -/
theorem auth_tokenExpiration_truthy_invalid_rejected_witness :
    (∃ e : JsErr,
        auth "secret" "store.json" ⟨JSVal.undef, JSVal.num 3⟩ = Except.error e)
      ∧ (∃ e : JsErr,
        auth2 "secret" "store.json" ⟨JSVal.num 3⟩ = Except.error e) :=
  auth_tokenExpiration_truthy_invalid_rejected "secret" "store.json"
    ⟨JSVal.undef, JSVal.num 3⟩ ⟨JSVal.num 3⟩ (by decide) (Or.inr (by decide))
    (by decide) (Or.inr (by decide))

/-- Claim C6: a request supplying no token (no truthy query parameter and
no truthy authorization header) makes `authorize` reject with the
401-classified "No authorization token." error; the promise having
settled, it cannot also resolve with claims. -/
theorem authorize_no_token_rejects_401
    (cfg : AuthConfig) (req : AuthorizeRequest) (nowSec : Int)
    (hq : tokenTruthy req.queryToken = false)
    (hh : tokenTruthy req.headerAuthorization = false) :
    authorize cfg req nowSec
      = some (Settle.rejected ⟨"No authorization token.", some 401⟩) := by
  simp [authorize, authorizeAttempts, promiseOutcome, extractToken, hq, hh, jwtVerify]

/-- Witness for C6 at a concrete input. -/
theorem authorize_no_token_rejects_401_witness :
    authorize ⟨"secret", "store.json", JSVal.bool false, JSVal.num 60⟩
        ⟨none, none⟩ 0
      = some (Settle.rejected ⟨"No authorization token.", some 401⟩) :=
  authorize_no_token_rejects_401 _ ⟨none, none⟩ 0 rfl rfl

/-- Claim C7 counterexample: with a valid token for "alice" in the query
parameter and a valid token for "bob" in the authorization header,
`authorize` resolves with the header token's claims, not the query
parameter's, because the header assignment on line 101 overwrites the
query assignment of line 100. -/
theorem authorize_header_wins_counterexample :
    authorize ⟨"secret", "store.json", JSVal.bool false, JSVal.num 60⟩
        ⟨some (Token.signed ⟨100, some "alice"⟩ "secret"),
          some (Token.signed ⟨100, some "bob"⟩ "secret")⟩ 0
        = some (Settle.resolved (some ⟨100, some "bob"⟩))
      ∧ authorize ⟨"secret", "store.json", JSVal.bool false, JSVal.num 60⟩
        ⟨some (Token.signed ⟨100, some "alice"⟩ "secret"),
          some (Token.signed ⟨100, some "bob"⟩ "secret")⟩ 0
        ≠ some (Settle.resolved (some ⟨100, some "alice"⟩)) := by
  constructor <;> decide

/-- Claim C7 as amended: when both a truthy query-parameter token and a
truthy authorization header are present, `authorize` uses the header
token (the later assignment overwrites the query token). -/
theorem authorize_prefers_header_token
    (cfg : AuthConfig) (req : AuthorizeRequest) (nowSec : Int)
    (hq : tokenTruthy req.queryToken = true)
    (hh : tokenTruthy req.headerAuthorization = true) :
    authorize cfg req nowSec
      = authorize cfg ⟨req.headerAuthorization, none⟩ nowSec := by
  obtain ⟨t, ht⟩ := tokenTruthy_isSome hh
  rw [ht]
  have hh2 : tokenTruthy (some t) = true := by
    rw [ht] at hh
    exact hh
  have h1 : extractToken req = some t := by
    simp [extractToken, ht, hh2]
  have h2 : extractToken ⟨some t, none⟩ = some t := by
    simp [extractToken, tokenTruthy_none, hh2]
  simp only [authorize, authorizeAttempts, promiseOutcome, h1, h2]

/-- Witness for the amended C7 at a concrete input. -/
theorem authorize_prefers_header_token_witness :
    authorize ⟨"secret", "store.json", JSVal.bool false, JSVal.num 60⟩
        ⟨some (Token.signed ⟨100, some "alice"⟩ "secret"),
          some (Token.signed ⟨100, some "bob"⟩ "secret")⟩ 0
      = authorize ⟨"secret", "store.json", JSVal.bool false, JSVal.num 60⟩
        ⟨some (Token.signed ⟨100, some "bob"⟩ "secret"), none⟩ 0 :=
  authorize_prefers_header_token _ _ 0 rfl rfl

/-- Claim C8: an error from the credential-validation collaborator makes
the promise returned by `authenticate` reject with that same error,
unchanged. -/
theorem authenticate_collaborator_error_propagates
    (cfg : AuthConfig) (validate : ValidateFn) (req : AuthRequest)
    (nowMs : Int) (e : JsErr)
    (h : validate (pick req.queryUsername req.bodyUsername)
      (pick req.queryPassword req.bodyPassword) cfg.userStoreFilePathV
        = Except.error e) :
    authenticate cfg validate req nowMs = some (Settle.rejected e) := by
  simp [authenticate, authenticateAttempts, promiseOutcome, h]

/-- Witness for C8 at a concrete input. -/
theorem authenticate_collaborator_error_propagates_witness :
    authenticate ⟨"secret", "store.json", JSVal.bool false, JSVal.num 60⟩
        (fun _ _ _ => Except.error ⟨"ENOENT: no such file or directory", none⟩)
        ⟨some "alice", some "pw", none, none⟩ 0
      = some (Settle.rejected ⟨"ENOENT: no such file or directory", none⟩) :=
  authenticate_collaborator_error_propagates _ _ _ 0
    ⟨"ENOENT: no such file or directory", none⟩ rfl

/-- Claim C9: after configuration, no sequence of calls to
`authenticationSpecification`, `authenticate` or `authorize` modifies any
module configuration variable: the state every later call reads is the
one `auth` established. -/
theorem api_calls_preserve_configuration (s : ModuleState) (calls : List ApiCall) :
    runCalls s calls = s := by
  induction calls generalizing s with
  | nil => rfl
  | cons c cs ih =>
    show runCalls (stepCall s c) cs = s
    rw [stepCall_id, ih]

/-- Claim C10: every successful `auth` stores a boolean transport flag:
`JSVal.bool true` exactly when the option was the boolean `true`; any
falsy option value (absent, false, 0, empty string, null) is accepted and
stored as `JSVal.bool false`; a truthy non-boolean option makes `auth`
fail with the dedicated error. -/
theorem auth_useHttp_boolean_invariant (secret path : String) (o : AuthOptions) :
    (∀ c : AuthConfig, auth secret path o = Except.ok c →
        c.useHttpV = JSVal.bool (decide (o.useHttp = JSVal.bool true)))
      ∧ (jsTruthy o.useHttp = true → isBoolVal o.useHttp = false →
          auth secret path o
            = Except.error ⟨"\"useHttp\" must be a boolean", none⟩)
      ∧ (jsTruthy o.useHttp = false →
          tokenExpInvalid o.tokenExpirationMinutes = false →
          auth secret path o = Except.ok ⟨secret, path, JSVal.bool false,
            jsOr o.tokenExpirationMinutes (JSVal.num TOKEN_EXPIRATION_MINUTES)⟩) := by
  refine ⟨?_, ?_, ?_⟩
  · intro c hc
    by_cases hu : useHttpInvalid o.useHttp = true
    · simp [auth, hu] at hc
    · by_cases hg : tokenExpInvalid o.tokenExpirationMinutes = true
      · simp [auth, hu, hg] at hc
      · have hu0 : useHttpInvalid o.useHttp = false := by
          cases hB : useHttpInvalid o.useHttp
          · rfl
          · exact absurd hB hu
        have hEq : auth secret path o
            = Except.ok ⟨secret, path, jsOr o.useHttp (JSVal.bool false),
                jsOr o.tokenExpirationMinutes (JSVal.num TOKEN_EXPIRATION_MINUTES)⟩ := by
          simp [auth, hu, hg]
        rw [hEq] at hc
        obtain rfl := Except.ok.inj hc
        show jsOr o.useHttp (JSVal.bool false)
          = JSVal.bool (decide (o.useHttp = JSVal.bool true))
        cases hv : o.useHttp with
        | bool b => cases b <;> simp [jsOr, jsTruthy]
        | undef => simp [jsOr, jsTruthy]
        | null => simp [jsOr, jsTruthy]
        | num q =>
          rw [hv] at hu0
          simp only [useHttpInvalid, isBoolVal, Bool.not_false, Bool.and_true] at hu0
          simp [jsOr, hu0]
        | str r =>
          rw [hv] at hu0
          simp only [useHttpInvalid, isBoolVal, Bool.not_false, Bool.and_true] at hu0
          simp [jsOr, hu0]
  · intro ht hb
    simp [auth, useHttpInvalid, ht, hb]
  · intro ht hg
    simp [auth, useHttpInvalid, ht, hg, jsOr]

/-- Witness for C10 at concrete inputs. -/
theorem auth_useHttp_boolean_invariant_witness :
    (⟨"secret", "store.json", JSVal.bool true, JSVal.num 60⟩ : AuthConfig).useHttpV
        = JSVal.bool (decide (JSVal.bool true = JSVal.bool true))
      ∧ auth "secret" "store.json" ⟨JSVal.num 1, JSVal.undef⟩
        = Except.error ⟨"\"useHttp\" must be a boolean", none⟩
      ∧ auth "secret" "store.json" ⟨JSVal.num 0, JSVal.undef⟩
        = Except.ok ⟨"secret", "store.json", JSVal.bool false,
            jsOr JSVal.undef (JSVal.num TOKEN_EXPIRATION_MINUTES)⟩ :=
  ⟨(auth_useHttp_boolean_invariant "secret" "store.json"
      ⟨JSVal.bool true, JSVal.num 60⟩).1 _ rfl,
    (auth_useHttp_boolean_invariant "secret" "store.json"
      ⟨JSVal.num 1, JSVal.undef⟩).2.1 (by decide) rfl,
    (auth_useHttp_boolean_invariant "secret" "store.json"
      ⟨JSVal.num 0, JSVal.undef⟩).2.2 (by decide) rfl⟩

end KoopAuthDirectFile
